import Mathlib

/-!
Verification of the `imme` static portfolio site repository.

The repository consists of two Astro site-generator configuration objects
(`astro.config.ts` for a Vercel deployment and a second config for a
GitHub-Pages deployment with a base path), and markdown-with-frontmatter
content: one experience entry, one blog post, and one project entry.

The configuration objects and the authored frontmatter are embedded below
verbatim.  The parts of the site that live outside the sources (the content
collection schemas and the templating layer, which the spec says are
delegated to the content framework) are modelled from the spec and marked
as such in their doc comments.
-/

/-- Configuration of the Vercel hosting adapter as passed in
`astro.config.ts`: `vercel({ webAnalytics: { enabled: true } })`. -/
structure VercelAdapter where
  webAnalyticsEnabled : Bool
  deriving DecidableEq

/-- The shape of the object passed to `defineConfig` in the two
site-generator configuration files: site base URL, optional base path
prefix, output mode string, optional hosting adapter, prefetch flag and
HTML compression flag. -/
structure AstroConfig where
  site : String
  base : Option String
  output : String
  adapter : Option VercelAdapter
  prefetch : Bool
  compressHTML : Bool
  deriving DecidableEq

/-- The configuration object of `astro.config.ts`: Vercel adapter with web
analytics enabled, no base path. -/
def vercelConfig : AstroConfig :=
  { site := "https://imme-navy.vercel.app/"
    base := none
    output := "static"
    adapter := some { webAnalyticsEnabled := true }
    prefetch := true
    compressHTML := true }

/-- The configuration object of the GitHub-Pages config file: base path
`/DOM-enlightenment`, no adapter. -/
def githubPagesConfig : AstroConfig :=
  { site := "https://giovanicavila.github.io"
    base := some "/DOM-enlightenment"
    output := "static"
    adapter := none
    prefetch := true
    compressHTML := true }

/-- The two site-generator configuration objects of the repository. -/
def repoConfigs : List AstroConfig := [vercelConfig, githubPagesConfig]

/-- A config selects a path-prefixed static export: it defines a base path
prefix and no hosting adapter. -/
def isPathPrefixedExport (c : AstroConfig) : Bool :=
  c.base.isSome && c.adapter.isNone

/-- A config selects an adapter-based static export with analytics enabled:
it defines a hosting adapter with web analytics enabled and no base path
prefix. -/
def isAdapterAnalyticsExport (c : AstroConfig) : Bool :=
  (match c.adapter with
   | some a => a.webAnalyticsEnabled
   | none => false) && c.base.isNone

/-- A scalar or list value of a frontmatter field. -/
inductive FmValue where
  | str : String → FmValue
  | boolean : Bool → FmValue
  | strList : List String → FmValue
  deriving DecidableEq

/-- A frontmatter block: the ordered key-value pairs authored at the top of
a content file. -/
abbrev Frontmatter := List (String × FmValue)

/-- Look up the value of a frontmatter field by key. -/
def lookupFm (e : Frontmatter) (k : String) : Option FmValue :=
  (e.find? (fun p => p.1 == k)).map (fun p => p.2)

/-- The experience entry authored in the repository
(`Front-end developer at Dataside`), frontmatter verbatim. -/
def datasideEntry : Frontmatter :=
  [("title", .str "Front-end developer at Dataside"),
   ("logo", .str "/images/companies/techcorp.svg"),
   ("description", .str "I specialize in developing user interfaces and managing state with React and TypeScript, focusing on building reusable components using Shadcn and TailwindCSS. I am also responsible for global state management via useContext and integrating REST APIs, leveraging React Query to optimize asynchronous data handling and caching."),
   ("startDate", .str "2025-06"),
   ("current", .boolean true)]

/-- The blog post authored in the repository (`Signals in Frontend`),
frontmatter verbatim. -/
def signalsPost : Frontmatter :=
  [("title", .str "Signals in Frontend: The Reactive Revolution You Didn\x27t Know You Needed"),
   ("description", .str "Why Vue and Angular embraced signals while React said \x27nah, we\x27re good\x27"),
   ("publishedAt", .str "2026-01-09"),
   ("tags", .strList ["signals", "reactivity", "vue", "angular", "react", "state-management"])]

/-- The project entry authored in the repository
(`src/content/projects/shop.md`), frontmatter verbatim. -/
def shopEntry : Frontmatter :=
  [("title", .str "Shop management"),
   ("description", .str "A pizza shop management application built as a study project to explore modern technologies. Features include pizza order management, a dynamic animated UI, and advanced routing with TanStack Router. Designed to deliver a seamless and engaging user experience while leveraging the latest in web development tools."),
   ("url", .str "https://github.com/giovanicavila/shop"),
   ("featured", .boolean true),
   ("techs", .strList ["React", "TypeScript", "TanStack Query", "TailwindCSS", "TanStack Router", "Shadcn", "animation-ui"])]

/-- All authored experience entries of the repository. -/
def experienceEntries : List Frontmatter := [datasideEntry]

/-- All authored blog posts of the repository. -/
def blogPosts : List Frontmatter := [signalsPost]

/-- All authored project entries of the repository. -/
def projectEntries : List Frontmatter := [shopEntry]

/-- Modelled from the spec: the content collection schema declarations are
not among the sources (validation is delegated to the content framework).
Required fields of the experience schema: title, logo, description,
startDate, current (endDate is optional). -/
def experienceSchema : List String :=
  ["title", "logo", "description", "startDate", "current"]

/-- Modelled from the spec: required fields of the blog post schema. -/
def blogSchema : List String :=
  ["title", "description", "publishedAt", "tags"]

/-- Modelled from the spec: required fields of the project schema. -/
def projectSchema : List String :=
  ["title", "description", "url", "featured", "techs"]

/-- The required fields of a schema that are absent from an entry. -/
def missingFields (schema : List String) (e : Frontmatter) : List String :=
  schema.filter (fun k => !(e.any (fun p => p.1 == k)))

/-- Modelled from the spec: the content framework validates an entry
against its schema and fails with an error on a missing required field,
never dropping the entry. -/
def validateEntry (schema : List String) (e : Frontmatter) :
    Except String Frontmatter :=
  match missingFields schema e with
  | [] => .ok e
  | k :: _ => .error ("missing required frontmatter field: " ++ k)

/-- Modelled from the spec: building a collection validates every entry in
order; the first schema violation aborts the build with an error. -/
def buildCollection (schema : List String) :
    List Frontmatter → Except String (List Frontmatter)
  | [] => .ok []
  | e :: es =>
    match validateEntry schema e with
    | .error msg => .error msg
    | .ok v =>
      match buildCollection schema es with
      | .error msg => .error msg
      | .ok rest => .ok (v :: rest)

/-- Whether building a collection succeeds. -/
def buildSucceeds (schema : List String) (es : List Frontmatter) : Bool :=
  match buildCollection schema es with
  | .ok _ => true
  | .error _ => false

/-- Split a character list into the runs separated by dashes. -/
def splitDash : List Char → List (List Char)
  | [] => [[]]
  | c :: cs =>
    let rest := splitDash cs
    if c = '-' then [] :: rest
    else
      match rest with
      | [] => [[c]]
      | g :: gs => (c :: g) :: gs

/-- Read a run of decimal digits as a number; `none` on a non-digit. -/
def digitsToNatAux (acc : Nat) : List Char → Option Nat
  | [] => some acc
  | c :: cs =>
    if c.isDigit then digitsToNatAux (acc * 10 + (c.toNat - 48)) cs else none

/-- Read a nonempty all-digit character run as a number. -/
def readNat (cs : List Char) : Option Nat :=
  match cs with
  | [] => none
  | _ => digitsToNatAux 0 cs

/-- Number of days of a month, with leap years. -/
def daysInMonth (y m : Nat) : Nat :=
  if m = 2 then
    if y % 4 = 0 ∧ (y % 100 ≠ 0 ∨ y % 400 = 0) then 29 else 28
  else if m = 4 ∨ m = 6 ∨ m = 9 ∨ m = 11 then 30 else 31

/-- Modelled from the spec: date frontmatter values are parsed by the
content framework; a valid date is written `YYYY-MM-DD` or `YYYY-MM` (the
latter meaning the first day of the month) with the month and day in
range. -/
def parseDate (s : String) : Option (Nat × Nat × Nat) :=
  match splitDash s.data with
  | [ys, ms] =>
    match readNat ys, readNat ms with
    | some y, some m =>
      if ys.length = 4 ∧ ms.length = 2 ∧ 1 ≤ m ∧ m ≤ 12 then
        some (y, m, 1)
      else none
    | _, _ => none
  | [ys, ms, ds] =>
    match readNat ys, readNat ms, readNat ds with
    | some y, some m, some d =>
      if ys.length = 4 ∧ ms.length = 2 ∧ ds.length = 2 ∧
          1 ≤ m ∧ m ≤ 12 ∧ 1 ≤ d ∧ d ≤ daysInMonth y m then
        some (y, m, d)
      else none
    | _, _, _ => none
  | _ => none

/-- A frontmatter value that is a string. -/
def isStrField (v : Option FmValue) : Bool :=
  match v with
  | some (.str _) => true
  | _ => false

/-- A frontmatter value that is a site-relative asset path: a string
starting with `/`. -/
def isAssetPath (v : Option FmValue) : Bool :=
  match v with
  | some (.str s) =>
    match s.data with
    | c :: _ => c = '/'
    | [] => false
  | _ => false

/-- A frontmatter value that is a valid, parseable date. -/
def isDateField (v : Option FmValue) : Bool :=
  match v with
  | some (.str s) => (parseDate s).isSome
  | _ => false

/-- A frontmatter value that is a boolean. -/
def isBoolField (v : Option FmValue) : Bool :=
  match v with
  | some (.boolean _) => true
  | _ => false

/-- A frontmatter value that is a list of string labels. -/
def isStrListField (v : Option FmValue) : Bool :=
  match v with
  | some (.strList _) => true
  | _ => false

/-- A flat record satisfying the experience schema: title string, logo
asset path, description string, startDate date, current boolean, and at
most optionally an endDate date. -/
def experienceEntryOk (e : Frontmatter) : Bool :=
  isStrField (lookupFm e "title") &&
  isAssetPath (lookupFm e "logo") &&
  isStrField (lookupFm e "description") &&
  isDateField (lookupFm e "startDate") &&
  isBoolField (lookupFm e "current") &&
  (match lookupFm e "endDate" with
   | none => true
   | v => isDateField v)

/-- A flat record satisfying the project schema: title, description and
url strings, featured boolean, techs list of string labels. -/
def projectEntryOk (e : Frontmatter) : Bool :=
  isStrField (lookupFm e "title") &&
  isStrField (lookupFm e "description") &&
  isStrField (lookupFm e "url") &&
  isBoolField (lookupFm e "featured") &&
  isStrListField (lookupFm e "techs")

/-- The start-date text of an experience entry. -/
def startText (e : Frontmatter) : String :=
  match lookupFm e "startDate" with
  | some (.str s) => s
  | _ => ""

/-- Modelled from the spec: the experience template is not among the
sources; per the spec an entry with an end date renders its range, and an
entry with `current: true` and no end date renders the ongoing indicator
`Present`. -/
def renderPeriod (e : Frontmatter) : String :=
  match lookupFm e "endDate" with
  | some (.str d) => startText e ++ " - " ++ d
  | _ =>
    if lookupFm e "current" = some (.boolean true) then
      startText e ++ " - Present"
    else startText e

/-- Modelled from the spec: the blog post template is not among the
sources; per the spec a post page renders the parsed `publishedAt`
publication date. -/
def renderPostDate (e : Frontmatter) : Option (Nat × Nat × Nat) :=
  match lookupFm e "publishedAt" with
  | some (.str s) => parseDate s
  | _ => none

/-- Modelled from the spec: the featured-projects listing template is not
among the sources; per the spec it lists exactly the projects whose
`featured` flag is true. -/
def featuredProjects (ps : List Frontmatter) : List Frontmatter :=
  ps.filter (fun p => lookupFm p "featured" = some (.boolean true))

/-- An experience entry whose `current` flag and `endDate` field are
mutually consistent: whenever current is true the endDate is absent. -/
def currentConsistent (e : Frontmatter) : Bool :=
  if lookupFm e "current" = some (FmValue.boolean true) then
    (lookupFm e "endDate").isNone
  else true

/-- An entry missing a required field fails validation with an error. -/
theorem validateEntry_error_of_missing (schema : List String) (e : Frontmatter)
    (hm : missingFields schema e ≠ []) :
    ∃ msg, validateEntry schema e = Except.error msg := by
  unfold validateEntry
  cases h : missingFields schema e with
  | nil => exact absurd h hm
  | cons k ks => exact ⟨"missing required frontmatter field: " ++ k, rfl⟩

/-- A collection holding an entry that misses a required field builds to an
error. -/
theorem buildCollection_error_of_missing (schema : List String)
    (entries : List Frontmatter) (e : Frontmatter) (he : e ∈ entries)
    (hm : missingFields schema e ≠ []) :
    ∃ msg, buildCollection schema entries = Except.error msg := by
  induction entries with
  | nil => exact absurd he (List.not_mem_nil e)
  | cons a as ih =>
    rcases List.mem_cons.mp he with h | h
    · obtain ⟨msg, hv⟩ := validateEntry_error_of_missing schema e hm
      exact ⟨msg, by simp [buildCollection, ← h, hv]⟩
    · obtain ⟨msg, hrec⟩ := ih h
      cases hv : validateEntry schema a with
      | error m => exact ⟨m, by simp [buildCollection, hv]⟩
      | ok v => exact ⟨msg, by simp [buildCollection, hv, hrec]⟩

/-- C1: Of the two site-generator configuration objects, exactly one
selects a path-prefixed static export (base path and no adapter) and
exactly one selects an adapter-based static export with web analytics
enabled and no base path, and no configuration selects both. -/
theorem config_targets_exclusive :
    repoConfigs.countP isPathPrefixedExport = 1 ∧
    repoConfigs.countP isAdapterAnalyticsExport = 1 ∧
    repoConfigs.all
      (fun c => !(isPathPrefixedExport c && isAdapterAnalyticsExport c)) = true := by
  decide

/-- C2: A collection holding any entry that misses a required frontmatter
field of its schema fails to build: the build reports an error instead of
silently dropping the entry. -/
theorem build_fails_on_missing_required (schema : List String)
    (entries : List Frontmatter) (e : Frontmatter) (he : e ∈ entries)
    (hm : missingFields schema e ≠ []) :
    buildSucceeds schema entries = false := by
  obtain ⟨msg, h⟩ := buildCollection_error_of_missing schema entries e he hm
  simp [buildSucceeds, h]

/-- Witness for C2: an experience entry carrying only a title misses
required fields, and building its collection fails. -/
theorem build_fails_on_missing_required_witness :
    ([("title", FmValue.str "x")] ∈ [[("title", FmValue.str "x")]] ∧
     missingFields experienceSchema [("title", FmValue.str "x")] ≠ []) ∧
    buildSucceeds experienceSchema [[("title", FmValue.str "x")]] = false :=
  ⟨⟨List.mem_singleton.mpr rfl, by decide⟩,
   build_fails_on_missing_required experienceSchema
     [[("title", FmValue.str "x")]] [("title", FmValue.str "x")]
     (List.mem_singleton.mpr rfl) (by decide)⟩

/-- C3: Each of the two configuration objects defines a nonempty site base
URL, sets the output mode to the string `static`, and sets the prefetch
flag and the HTML compression flag. -/
theorem configs_define_site_static_flags :
    repoConfigs.all
      (fun c => !(c.site == "") && (c.output == "static") &&
        c.prefetch && c.compressHTML) = true := by
  decide

/-- C4: Every authored experience entry is a flat record satisfying the
experience schema: title string, logo asset path, description string,
startDate date, current boolean, and at most optionally an endDate date;
the collection builds without error. -/
theorem experience_entries_satisfy_schema :
    experienceEntries.all experienceEntryOk = true ∧
    buildSucceeds experienceSchema experienceEntries = true := by
  decide

/-- C5: Every authored project entry is a flat record satisfying the
project schema: title, description and url strings, featured boolean, and
techs an ordered sequence of string labels; the collection builds without
error. -/
theorem project_entries_satisfy_schema :
    projectEntries.all projectEntryOk = true ∧
    buildSucceeds projectSchema projectEntries = true := by
  decide

/-- C6: Every published blog post carries a publishedAt value that is a
valid, parseable date, and its page renders with that publication date;
the one authored post renders with January 9, 2026. -/
theorem blog_posts_render_valid_date :
    blogPosts.all (fun p => (renderPostDate p).isSome) = true ∧
    renderPostDate signalsPost = some (2026, 1, 9) ∧
    buildSucceeds blogSchema blogPosts = true := by
  decide

/-- C7: Any content entry whose frontmatter has `current: true` and no
`endDate` renders the ongoing indicator: its period text ends in
`Present`. -/
theorem current_renders_ongoing (e : Frontmatter)
    (hc : lookupFm e "current" = some (FmValue.boolean true))
    (he : lookupFm e "endDate" = none) :
    renderPeriod e = startText e ++ " - Present" := by
  simp [renderPeriod, he, hc]

/-- Witness for C7: the authored experience entry has `current: true` and
no `endDate`, and renders the ongoing indicator. -/
theorem current_renders_ongoing_witness :
    (lookupFm datasideEntry "current" = some (FmValue.boolean true) ∧
     lookupFm datasideEntry "endDate" = none) ∧
    renderPeriod datasideEntry = startText datasideEntry ++ " - Present" :=
  ⟨⟨by decide, by decide⟩,
   current_renders_ongoing datasideEntry (by decide) (by decide)⟩

/-- C8: Every project entry whose frontmatter has `featured: true` appears
in the featured-projects listing. -/
theorem featured_project_in_listing (ps : List Frontmatter) (p : Frontmatter)
    (hp : p ∈ ps) (hf : lookupFm p "featured" = some (FmValue.boolean true)) :
    p ∈ featuredProjects ps := by
  unfold featuredProjects
  exact List.mem_filter.mpr ⟨hp, by simp [hf]⟩

/-- Witness for C8: the authored project entry is featured and appears in
the featured-projects listing of the repository's projects. -/
theorem featured_project_in_listing_witness :
    (shopEntry ∈ projectEntries ∧
     lookupFm shopEntry "featured" = some (FmValue.boolean true)) ∧
    shopEntry ∈ featuredProjects projectEntries :=
  ⟨⟨List.mem_singleton.mpr rfl, by decide⟩,
   featured_project_in_listing projectEntries shopEntry
     (List.mem_singleton.mpr rfl) (by decide)⟩

/-- C9: The two configuration objects agree on output mode, prefetch flag
and HTML compression flag, and differ in the deployment-target fields:
site URL, base path prefix and hosting adapter. -/
theorem configs_differ_only_in_target :
    vercelConfig.output = githubPagesConfig.output ∧
    vercelConfig.prefetch = githubPagesConfig.prefetch ∧
    vercelConfig.compressHTML = githubPagesConfig.compressHTML ∧
    (vercelConfig.site == githubPagesConfig.site) = false ∧
    (vercelConfig.base == githubPagesConfig.base) = false ∧
    decide (vercelConfig.adapter = githubPagesConfig.adapter) = false := by
  decide

/-- C10: In every authored experience entry the `current` flag and the
`endDate` field are mutually consistent: whenever current is true the
endDate field is absent. -/
theorem experience_current_endDate_consistent :
    experienceEntries.all currentConsistent = true := by
  decide
